import Mathlib

/-!
Verification of the Astra astronomy proxy service (`src/main.py`) against its
natural-language specification.

The development shallowly embeds the parts of the program the claims are
about:

* `SimpleCache` with its four operations `get`, `setex`, `delete`, `clear`
  (main.py lines 51-84).  Python dictionaries become functions
  `String → Option _`; `datetime.now()` becomes an explicit `now : Int`
  parameter threaded to the operations that read the clock; a dictionary
  lookup that would raise `KeyError` is modelled by returning `none` at the
  operation level (`Option` result = possible interpreter crash).
* the unit-conversion helpers (lines 109-130) over `ℚ`, with Python's
  banker's rounding (`round` = round-half-to-even) made explicit.
* the moon-phase classifier (lines 166-192) over `ℚ`.
* cache-key derivation of the weather, geocode and planetary-position
  endpoints (lines 255-258, 1056, 703).
* the control flow of the `get_weather`, `geocode` and
  `get_planetary_position` handlers, including the Python `try/except`
  structure: the try-body produces `Except PyExc _`, and the except chain is
  a function on the raised exception.  Crucially, `fastapi.HTTPException`
  is a subclass of `Exception`, so an `HTTPException` raised by
  `error_response` *inside* a try-body is caught by a blanket
  `except Exception` arm; the embedding keeps that exception as an explicit
  constructor so the catch order is visible.
-/

/-! ## The TTL cache (main.py lines 51-84) -/

/-- Pointwise update of a `String`-keyed partial map (Python `d[k] = v` /
`del d[k]`). -/
def updateMap (m : String → Option α) (k : String) (v : Option α) : String → Option α :=
  fun k' => if k' = k then v else m k'

/-- `SimpleCache`: two dictionaries, `self.cache` (values) and `self.expiry`
(absolute expiry instants).  Time instants are modelled as integers. -/
structure SimpleCache where
  cache : String → Option String
  expiry : String → Option Int

/-- `SimpleCache.__init__`: both dictionaries empty. -/
def emptyCache : SimpleCache :=
  ⟨fun _ => none, fun _ => none⟩

/-- `SimpleCache.get` (lines 58-68).  Mirrors the Python short-circuit:
`if key in self.cache and datetime.now() < self.expiry[key]: return
self.cache[key]`, then the lazy cleanup `if key in self.cache: del ...`.
A `KeyError` (key in `cache` but missing from `expiry`) is modelled as
`none`; a normal run returns the post-state and the optional value. -/
def SimpleCache.get (c : SimpleCache) (key : String) (now : Int) :
    Option (SimpleCache × Option String) :=
  match c.cache key with
  | none => some (c, none)
  | some v =>
    match c.expiry key with
    | none => none
    | some e =>
      if now < e then some (c, some v)
      else some (⟨updateMap c.cache key none, updateMap c.expiry key none⟩, none)

/-- `SimpleCache.setex` (lines 70-73): store the value and record
`now + ttl_seconds` as the expiry. -/
def SimpleCache.setex (c : SimpleCache) (key : String) (ttl_seconds : Int)
    (value : String) (now : Int) : SimpleCache :=
  ⟨updateMap c.cache key (some value), updateMap c.expiry key (some (now + ttl_seconds))⟩

/-- `SimpleCache.delete` (lines 75-79).  `del self.expiry[key]` raises
`KeyError` when the key is in `cache` but not in `expiry`; that crash is the
`none` result. -/
def SimpleCache.delete (c : SimpleCache) (key : String) : Option SimpleCache :=
  match c.cache key with
  | none => some c
  | some _ =>
    match c.expiry key with
    | none => none
    | some _ => some ⟨updateMap c.cache key none, updateMap c.expiry key none⟩

/-- `SimpleCache.clear` (lines 81-84). -/
def SimpleCache.clear (_ : SimpleCache) : SimpleCache :=
  ⟨fun _ => none, fun _ => none⟩

/-- The two dictionaries hold exactly the same keys. -/
def SameKeys (c : SimpleCache) : Prop :=
  ∀ k, (c.cache k).isSome ↔ (c.expiry k).isSome

/-- A read of `k` at `now` succeeds, returns `v`, and leaves the cache
untouched. -/
def readsValue (c : SimpleCache) (k : String) (now : Int) (v : String) : Prop :=
  c.get k now = some (c, some v)

/-- A read of `k` at `now` behaves exactly like a read of an absent key:
it succeeds, returns `none`, and afterwards `k` is present in neither
dictionary. -/
def readsAsAbsent (c : SimpleCache) (k : String) (now : Int) : Prop :=
  ∃ c', c.get k now = some (c', none) ∧ c'.cache k = none ∧ c'.expiry k = none

/-- The entry at `k` (if any) is already expired at instant `now`. -/
def expiredAt (c : SimpleCache) (k : String) (now : Int) : Prop :=
  match c.expiry k with
  | some e => e ≤ now
  | none => False

/-- `c'` differs from `c` at most by the removal of entries that were already
expired at `now`: no entry was created, overwritten or refreshed. -/
def cachePreservedOrExpiredEvict (c c' : SimpleCache) (now : Int) : Prop :=
  ∀ k, (c'.cache k = c.cache k ∧ c'.expiry k = c.expiry k) ∨
       (c'.cache k = none ∧ c'.expiry k = none ∧ expiredAt c k now)

/-- `get` does not crash and its post-state keeps the two dictionaries in
sync. -/
def getTotalPreserving (c : SimpleCache) (k : String) (now : Int) : Prop :=
  ∃ r, c.get k now = some r ∧ SameKeys r.1

/-- `delete` does not crash and its post-state keeps the two dictionaries in
sync. -/
def deleteTotalPreserving (c : SimpleCache) (k : String) : Prop :=
  ∃ c', c.delete k = some c' ∧ SameKeys c'

/-! ## Python numeric helpers -/

/-- Python's built-in `round` to an integer: round half to even
(banker's rounding), modelled exactly on `ℚ`. -/
def pyRound (q : ℚ) : ℤ :=
  let f : ℤ := ⌊q⌋
  if q - f < 1/2 then f
  else if (1/2 : ℚ) < q - f then f + 1
  else if f % 2 = 0 then f else f + 1

/-- Python's `round(x, 2)`: round to two decimal places, half to even. -/
def pyRound2 (x : ℚ) : ℚ :=
  (pyRound (x * 100) : ℚ) / 100

/-! ## Python string helpers (used by cache-key normalization claims) -/

/-- Python `str.lower()` (ASCII fragment, as used for place names). -/
def pyLower (s : String) : String :=
  ⟨s.data.map Char.toLower⟩

/-- Python `str.strip()` on surrounding whitespace. -/
def pyStrip (s : String) : String :=
  ⟨((s.data.dropWhile Char.isWhitespace).reverse.dropWhile Char.isWhitespace).reverse⟩

/-- Python `str.capitalize()` (ASCII fragment): first character upper-cased,
the rest lower-cased. -/
def pyCapitalize (s : String) : String :=
  match s.data with
  | [] => ""
  | ch :: cs => ⟨ch.toUpper :: cs.map Char.toLower⟩

/-! ## Unit conversions (main.py lines 109-130) -/

/-- `celsius_to_fahrenheit` (lines 109-111). -/
def celsius_to_fahrenheit (celsius : ℚ) : ℤ :=
  pyRound (celsius * 9 / 5 + 32)

/-- `kph_to_mph` (lines 113-115); `0.621371` taken exactly. -/
def kph_to_mph (kph : ℚ) : ℤ :=
  pyRound (kph * (621371 / 1000000))

/-- The 16 compass directions of `degrees_to_cardinal` (lines 127-128). -/
def directions : List String :=
  ["N", "NNE", "NE", "ENE", "E", "ESE", "SE", "SSE",
   "S", "SSW", "SW", "WSW", "W", "WNW", "NW", "NNW"]

/-- `index = round(degrees / 22.5) % 16` (line 129); Python `%` on a
positive modulus is Euclidean remainder, i.e. `Int.emod`. -/
def cardinalIndex (degrees : ℚ) : ℤ :=
  (pyRound (degrees / (45/2))).emod 16

/-- `degrees_to_cardinal` (lines 125-130); list indexing is modelled as the
fallible `getElem?` so an out-of-range index (Python `IndexError`) would
show up as `none`. -/
def degrees_to_cardinal (degrees : ℚ) : Option String :=
  directions[(cardinalIndex degrees).toNat]?

/-! ## Moon-phase classifier (main.py lines 166-192) -/

/-- `get_moon_phase_name` (lines 166-192), the chain of interval tests on
the phase fraction, over `ℚ`. -/
def get_moon_phase_name (phase_value : ℚ) : String :=
  if 0 ≤ phase_value ∧ phase_value < 3/100 then "New Moon"
  else if 3/100 ≤ phase_value ∧ phase_value < 22/100 then "Waxing Crescent"
  else if 22/100 ≤ phase_value ∧ phase_value < 28/100 then "First Quarter"
  else if 28/100 ≤ phase_value ∧ phase_value < 47/100 then "Waxing Gibbous"
  else if 47/100 ≤ phase_value ∧ phase_value < 53/100 then "Full Moon"
  else if 53/100 ≤ phase_value ∧ phase_value < 72/100 then "Waning Gibbous"
  else if 72/100 ≤ phase_value ∧ phase_value < 78/100 then "Last Quarter"
  else if 78/100 ≤ phase_value ∧ phase_value ≤ 1 then "Waning Crescent"
  else "Unknown"

/-! ## Cache-key derivation -/

/-- Weather cache key (lines 255-258): built from the coordinates rounded to
two decimal places, `f"weather:{lat_key}:{lon_key}"`. -/
def weather_cache_key (latitude longitude : ℚ) : String :=
  "weather:" ++ toString (pyRound2 latitude) ++ ":" ++ toString (pyRound2 longitude)

/-- Rendering of an optional value in an f-string: Python prints `None` for
`None`. -/
def optStr (s : Option String) : String :=
  match s with
  | none => "None"
  | some v => v

/-- Geocode cache key (line 1056): `f"geocode:{city}:{state}:{country}"` —
note the city string is used verbatim, with no lower-casing or trimming. -/
def geocode_cache_key (city : String) (state : Option String) (country : String) : String :=
  "geocode:" ++ city ++ ":" ++ optStr state ++ ":" ++ country

/-- Rendering of an optional rational in an f-string (`None` for `None`). -/
def optQStr (q : Option ℚ) : String :=
  match q with
  | none => "None"
  | some v => toString v

/-- Planetary-position cache key (line 703):
`f"planet:{planet_cap}:{date or 'now'}:{time or 'now'}:{latitude}:{longitude}"`.
(The date/time query parameters are regex-validated to be non-empty, so
`x or 'now'` coincides with `getD "now"`.) -/
def planet_cache_key (planet_cap : String) (date time : Option String)
    (latitude longitude : Option ℚ) : String :=
  "planet:" ++ planet_cap ++ ":" ++ (date.getD "now") ++ ":" ++ (time.getD "now")
    ++ ":" ++ optQStr latitude ++ ":" ++ optQStr longitude

/-! ## Endpoint handler control flow

Each handler is embedded as a function of the cache state, the clock, its
query parameters and an abstract *upstream outcome* (what the awaited HTTP
call / computation did).  The Python `try` body returns `Except _ _` whose
error is the raised exception; the `except` chain then maps the exception to
the `HTTPException` the client sees.  `error_response` always raises
`HTTPException(status_code, {code, ...})`. -/

/-- Python truthiness of `cached_data` in `if cached_data:`: a hit needs a
present *and non-empty* string. -/
def truthy (cached_data : Option String) : Option String :=
  match cached_data with
  | some s => if s = "" then none else some s
  | none => none

/-- The `HTTPException` payload the client observes: HTTP status plus the
stable error code. -/
structure HTTPErr where
  status : Nat
  code : String
deriving DecidableEq, Repr

/-- Outcome of the Open-Meteo call in `get_weather`. -/
inductive WeatherUpstream where
  | ok (payload : String)
  | timeout
  | statusError (status : Nat)
  | failure
deriving DecidableEq, Repr

/-- Exceptions that can escape the `get_weather` try-body. -/
inductive WeatherExc where
  | timeoutExc
  | httpStatusError (status : Nat)
  | otherExc
deriving DecidableEq, Repr

/-- The `get_weather` try-body (lines 265-314), entered on a cache miss:
on success it stores the reshaped payload with TTL 300 s and returns it;
each failure mode raises the corresponding exception. -/
def get_weather_try (c1 : SimpleCache) (key : String) (now : Int)
    (u : WeatherUpstream) : Except WeatherExc (SimpleCache × String) :=
  match u with
  | .ok payload => .ok (c1.setex key 300 payload now, payload)
  | .timeout => .error .timeoutExc
  | .statusError s => .error (.httpStatusError s)
  | .failure => .error .otherExc

/-- The `get_weather` except chain (lines 316-323): `httpx.TimeoutException`,
then `httpx.HTTPStatusError`, then `Exception`. -/
def get_weather_except (e : WeatherExc) : HTTPErr :=
  match e with
  | .timeoutExc => ⟨503, "SERVICE_UNAVAILABLE"⟩
  | .httpStatusError _ => ⟨503, "SERVICE_ERROR"⟩
  | .otherExc => ⟨500, "INTERNAL_ERROR"⟩

/-- The `get_weather` handler (lines 246-323).  The result is `none` if the
cache `get` crashes; otherwise the final cache state and the response.
`if cached_data:` is Python truthiness, so an empty cached string falls
through to the fetch. -/
def get_weather (c : SimpleCache) (now : Int) (latitude longitude : ℚ)
    (u : WeatherUpstream) : Option (SimpleCache × Except HTTPErr String) :=
  let key := weather_cache_key latitude longitude
  match c.get key now with
  | none => none
  | some (c1, cached_data) =>
    match truthy cached_data with
    | some s => some (c1, .ok s)
    | none =>
      match get_weather_try c1 key now u with
      | .ok (c2, payload) => some (c2, .ok payload)
      | .error e => some (c1, .error (get_weather_except e))

/-- Outcome of the Nominatim call in `geocode`. -/
inductive GeoUpstream where
  | results (payload : String)
  | empty
  | timeout
  | failure
deriving DecidableEq, Repr

/-- Exceptions that can escape the `geocode` try-body.  `httpException` is a
`fastapi.HTTPException` raised by `error_response` *inside* the try. -/
inductive GeoExc where
  | timeoutExc
  | httpException (status : Nat) (code : String)
  | otherExc
deriving DecidableEq, Repr

/-- The `geocode` try-body (lines 1063-1109), entered on a cache miss.  When
Nominatim returns zero results, `error_response("LOCATION_NOT_FOUND", ..., 404)`
raises an `HTTPException` — still inside the try block (lines 1089-1091).
On success the payload is cached with TTL 2592000 s (30 days). -/
def geocode_try (c1 : SimpleCache) (key : String) (now : Int)
    (u : GeoUpstream) : Except GeoExc (SimpleCache × String) :=
  match u with
  | .results payload => .ok (c1.setex key 2592000 payload now, payload)
  | .empty => .error (.httpException 404 "LOCATION_NOT_FOUND")
  | .timeout => .error .timeoutExc
  | .failure => .error .otherExc

/-- The `geocode` except chain (lines 1111-1115): `httpx.TimeoutException`,
then a blanket `except Exception`.  `fastapi.HTTPException` subclasses
`Exception`, so the 404 raised inside the try-body is caught here and
re-wrapped as a 500 `INTERNAL_ERROR`. -/
def geocode_except (e : GeoExc) : HTTPErr :=
  match e with
  | .timeoutExc => ⟨503, "SERVICE_UNAVAILABLE"⟩
  | .httpException _ _ => ⟨500, "INTERNAL_ERROR"⟩
  | .otherExc => ⟨500, "INTERNAL_ERROR"⟩

/-- The `geocode` handler (lines 1046-1115). -/
def geocode (c : SimpleCache) (now : Int) (city : String) (state : Option String)
    (country : String) (u : GeoUpstream) : Option (SimpleCache × Except HTTPErr String) :=
  let key := geocode_cache_key city state country
  match c.get key now with
  | none => none
  | some (c1, cached_data) =>
    match truthy cached_data with
    | some s => some (c1, .ok s)
    | none =>
      match geocode_try c1 key now u with
      | .ok (c2, payload) => some (c2, .ok payload)
      | .error e => some (c1, .error (geocode_except e))

/-! ## Planetary-position endpoint (main.py lines 683-806) -/

/-- `VALID_PLANETS` (line 683). -/
def VALID_PLANETS : List String :=
  ["Mercury", "Venus", "Mars", "Jupiter", "Saturn", "Uranus", "Neptune"]

/-- Outcome of the Skyfield computation in `get_planetary_position`. -/
inductive PlanetOutcome where
  | ok (payload : String)
  | failure
deriving DecidableEq, Repr

/-- The `get_planetary_position` try-body plus its single
`except Exception` arm (lines 712-806), entered after validation on a cache
miss: on success it stores the payload with the location-dependent TTL. -/
def planetary_fetch (c1 : SimpleCache) (key : String) (ttl : Int) (now : Int)
    (u : PlanetOutcome) : SimpleCache × Except HTTPErr String :=
  match u with
  | .ok payload => (c1.setex key ttl payload now, .ok payload)
  | .failure => (c1, .error ⟨500, "INTERNAL_ERROR"⟩)

/-- The `get_planetary_position` handler (lines 685-806): the planet name is
validated first — `error_response("INVALID_PLANET", ..., 400)` is raised
*before* the cache key is built and before any cache access — then the
cache is consulted (TTL 300 with a location, 3600 without). -/
def get_planetary_position (planet : String) (date time : Option String)
    (latitude longitude : Option ℚ) (c : SimpleCache) (now : Int)
    (u : PlanetOutcome) : Option (SimpleCache × Except HTTPErr String) :=
  let planet_cap := pyCapitalize planet
  if planet_cap ∈ VALID_PLANETS then
    let key := planet_cache_key planet_cap date time latitude longitude
    let ttl : Int := if latitude.isSome then 300 else 3600
    match c.get key now with
    | none => none
    | some (c1, cached_data) =>
      match truthy cached_data with
      | some s => some (c1, .ok s)
      | none => some (planetary_fetch c1 key ttl now u)
  else
    some (c, .error ⟨400, "INVALID_PLANET"⟩)

/-! ## Concrete fixtures and projections used by closed statements -/

/-- A cache holding one weather entry, written at instant 0 with TTL 10,
hence expired at any instant ≥ 10. -/
def staleWeatherCache : SimpleCache :=
  SimpleCache.setex emptyCache (weather_cache_key 0 0) 10 "old" 0

/-- Cache contents at one key after a handler run (`none` = handler crash). -/
def resultCacheAt (r : Option (SimpleCache × Except HTTPErr String)) (k : String) :
    Option (Option String) :=
  r.map (fun p => p.1.cache k)

/-- The response of a handler run (`none` = handler crash). -/
def resultResponse (r : Option (SimpleCache × Except HTTPErr String)) :
    Option (Except HTTPErr String) :=
  r.map (fun p => p.2)

/-! ## Shared lemmas -/

/-- A successful `SimpleCache.get` never creates or refreshes entries: its
post-state differs from the pre-state at most by dropping an entry that was
already expired. -/
theorem get_result_preserved_or_evicted (c : SimpleCache) (k : String) (now : Int)
    (c1 : SimpleCache) (r : Option String) (h : c.get k now = some (c1, r)) :
    cachePreservedOrExpiredEvict c c1 now := by
  cases hc : c.cache k with
  | none =>
    simp only [SimpleCache.get, hc, Option.some.injEq, Prod.mk.injEq] at h
    intro k'
    exact Or.inl ⟨by rw [← h.1], by rw [← h.1]⟩
  | some v =>
    cases he : c.expiry k with
    | none =>
      simp only [SimpleCache.get, hc, he] at h
      exact Option.noConfusion h
    | some e =>
      by_cases hlt : now < e
      · simp only [SimpleCache.get, hc, he, if_pos hlt, Option.some.injEq,
          Prod.mk.injEq] at h
        intro k'
        exact Or.inl ⟨by rw [← h.1], by rw [← h.1]⟩
      · simp only [SimpleCache.get, hc, he, if_neg hlt, Option.some.injEq,
          Prod.mk.injEq] at h
        intro k'
        by_cases hk : k' = k
        · subst hk
          refine Or.inr ⟨?_, ?_, ?_⟩
          · rw [← h.1]; simp [updateMap]
          · rw [← h.1]; simp [updateMap]
          · unfold expiredAt; rw [he]; omega
        · exact Or.inl ⟨by rw [← h.1]; simp [updateMap, hk],
                        by rw [← h.1]; simp [updateMap, hk]⟩

/-! ## Claim theorems -/

/-- C1: after `setex(k, t, v)` at instant `T` with `t > 0`, a `get(k)` at any
instant in `[T, T + t)` returns `v` (leaving the cache untouched), and a
`get(k)` at any instant `≥ T + t` behaves exactly like a read of an absent
key: it returns `none` and afterwards `k` is in neither dictionary. -/
theorem cache_expiry_correct (c : SimpleCache) (k v : String) (t T Tr : Int)
    (_ht : 0 < t) :
    (T ≤ Tr → Tr < T + t → readsValue (c.setex k t v T) k Tr v) ∧
    (T + t ≤ Tr → readsAsAbsent (c.setex k t v T) k Tr) := by
  constructor
  · intro _ h2
    unfold readsValue SimpleCache.get SimpleCache.setex updateMap
    simp [h2]
  · intro h
    have h2 : ¬ (Tr < T + t) := by omega
    unfold readsAsAbsent SimpleCache.get SimpleCache.setex updateMap
    simp [h2]

/-- Closed witness for `cache_expiry_correct`: with TTL 5 written at instant
0, instant 3 still reads `"v"` and instant 7 reads as absent. -/
theorem cache_expiry_correct_witness :
    (0 : Int) < 5 ∧
    readsValue (emptyCache.setex "k" 5 "v" 0) "k" 3 "v" ∧
    readsAsAbsent (emptyCache.setex "k" 5 "v" 0) "k" 7 :=
  ⟨by decide,
   (cache_expiry_correct emptyCache "k" "v" 5 0 3 (by decide)).1 (by decide) (by decide),
   (cache_expiry_correct emptyCache "k" "v" 5 0 7 (by decide)).2 (by decide)⟩

/-- C2: `setex(k, t1, v1)` then `setex(k, t2, v2)` leaves exactly `v2` under
`k`, with expiry `T2 + t2` computed from `t2` alone, and any read before that
expiry returns `v2`. -/
theorem cache_overwrite_last_write_wins (c : SimpleCache) (k v1 v2 : String)
    (t1 t2 T1 T2 Tr : Int) (h : Tr < T2 + t2) :
    ((c.setex k t1 v1 T1).setex k t2 v2 T2).cache k = some v2 ∧
    ((c.setex k t1 v1 T1).setex k t2 v2 T2).expiry k = some (T2 + t2) ∧
    readsValue ((c.setex k t1 v1 T1).setex k t2 v2 T2) k Tr v2 := by
  unfold readsValue SimpleCache.get SimpleCache.setex updateMap
  simp [h]

/-- Closed witness for `cache_overwrite_last_write_wins`. -/
theorem cache_overwrite_last_write_wins_witness :
    (3 : Int) < 10 + 7 ∧
    ((emptyCache.setex "k" 99 "v1" 0).setex "k" 7 "v2" 10).cache "k" = some "v2" ∧
    ((emptyCache.setex "k" 99 "v1" 0).setex "k" 7 "v2" 10).expiry "k" = some (10 + 7) ∧
    readsValue ((emptyCache.setex "k" 99 "v1" 0).setex "k" 7 "v2" 10) "k" 3 "v2" :=
  ⟨by decide, cache_overwrite_last_write_wins emptyCache "k" "v1" "v2" 99 7 0 10 3 (by decide)⟩

/-- C3 counterexample: `"Paris"` and `"paris"` differ only in letter case
(they agree after lower-casing and trimming), yet the geocode endpoint
derives *different* cache keys from them, because line 1056 interpolates the
city string verbatim. -/
theorem geocode_key_not_normalized_cex :
    pyLower (pyStrip "Paris") = pyLower (pyStrip "paris") ∧
    geocode_cache_key "Paris" none "US" ≠ geocode_cache_key "paris" none "US" := by
  constructor
  · decide
  · decide

/-- C3 amended: the coordinate half of the claim holds — weather cache keys
are built only from the coordinates rounded to 2 decimal places, so
coordinate pairs that agree after rounding share a key.  The place-name half
does not: the geocode key uses the verbatim city string, so (for a fixed
state and country) two city strings share a key iff they are identical —
case or whitespace variants get distinct keys. -/
theorem cache_key_derivation_amended :
    (∀ lat1 lon1 lat2 lon2 : ℚ, pyRound2 lat1 = pyRound2 lat2 →
      pyRound2 lon1 = pyRound2 lon2 →
      weather_cache_key lat1 lon1 = weather_cache_key lat2 lon2) ∧
    (∀ (city1 city2 : String) (state : Option String) (country : String),
      geocode_cache_key city1 state country = geocode_cache_key city2 state country ↔
        city1 = city2) := by
  constructor
  · intro lat1 lon1 lat2 lon2 h1 h2
    unfold weather_cache_key
    rw [h1, h2]
  · intro city1 city2 state country
    constructor
    · intro h
      unfold geocode_cache_key at h
      have hd := congrArg String.data h
      simp only [String.data_append] at hd
      have hd2 := List.append_cancel_right (List.append_cancel_right hd)
      have hd3 := List.append_cancel_right (List.append_cancel_right hd2)
      have hd4 := List.append_cancel_left hd3
      cases city1
      cases city2
      exact congrArg String.mk hd4
    · intro h
      rw [h]

/-- Closed witness for `cache_key_derivation_amended`: `36.0331` and
`36.0332` agree after rounding to two decimals and indeed share the weather
cache key. -/
theorem cache_key_derivation_amended_witness :
    pyRound2 (360331/10000) = pyRound2 (360332/10000) ∧
    pyRound2 0 = pyRound2 0 ∧
    weather_cache_key (360331/10000) 0 = weather_cache_key (360332/10000) 0 :=
  ⟨by norm_num [pyRound2, pyRound], rfl,
   cache_key_derivation_amended.1 (360331/10000) 0 (360332/10000) 0
     (by norm_num [pyRound2, pyRound]) rfl⟩

/-- C4 counterexample: the classifier is not cyclic — a phase fraction of
exactly `1.0` lands in the final `0.78 ≤ x ≤ 1.00` bucket and yields
`"Waning Crescent"`, not the `"New Moon"` that `0.0` yields. -/
theorem moon_phase_not_cyclic_cex :
    get_moon_phase_name 1 = "Waning Crescent" ∧
    get_moon_phase_name 0 = "New Moon" ∧
    get_moon_phase_name 1 ≠ get_moon_phase_name 0 := by
  refine ⟨by norm_num [get_moon_phase_name], by norm_num [get_moon_phase_name], ?_⟩
  rw [show get_moon_phase_name 1 = "Waning Crescent" by norm_num [get_moon_phase_name],
    show get_moon_phase_name 0 = "New Moon" by norm_num [get_moon_phase_name]]
  decide

/-- C4 amended: `get_moon_phase_name` returns `"New Moon"` at exactly `0.0`
and `"Full Moon"` at exactly `0.5`, but does not interpret fractions
cyclically: `1.0` returns `"Waning Crescent"`. -/
theorem moon_phase_boundaries_amended :
    get_moon_phase_name 0 = "New Moon" ∧
    get_moon_phase_name (1/2) = "Full Moon" ∧
    get_moon_phase_name 1 = "Waning Crescent" := by
  refine ⟨by norm_num [get_moon_phase_name], by norm_num [get_moon_phase_name],
    by norm_num [get_moon_phase_name]⟩

/-- C5 counterexample: a failed request does *not* always leave the cache
state completely unchanged.  `staleWeatherCache` holds an (expired) entry
under the weather key; running the weather handler at instant 100 with an
upstream timeout produces the 503 error *and* removes that entry — the
initial `cache.get` lazily evicts it. -/
theorem failed_request_evicts_expired_entry_cex :
    staleWeatherCache.cache (weather_cache_key 0 0) = some "old" ∧
    resultCacheAt (get_weather staleWeatherCache 100 0 0 WeatherUpstream.timeout)
      (weather_cache_key 0 0) = some none ∧
    resultResponse (get_weather staleWeatherCache 100 0 0 WeatherUpstream.timeout) =
      some (Except.error ⟨503, "SERVICE_UNAVAILABLE"⟩) := by
  refine ⟨by simp [staleWeatherCache, SimpleCache.setex, updateMap], ?_, ?_⟩ <;>
    simp [staleWeatherCache, SimpleCache.setex, updateMap, get_weather, SimpleCache.get,
      truthy, get_weather_try, get_weather_except, resultCacheAt, resultResponse]

/-- C5 amended: on every failure path of the modelled handlers (`get_weather`
and `geocode`) no `setex` is performed — the final cache never contains an
entry that was not already present with the same value and expiry; the only
possible mutation is the lazy eviction, by the initial `cache.get`, of an
entry that was already expired at request time (observationally a no-op). -/
theorem no_cache_write_on_failure_amended :
    (∀ (c : SimpleCache) (now : Int) (lat lon : ℚ) (u : WeatherUpstream)
        (c' : SimpleCache) (e : HTTPErr),
        get_weather c now lat lon u = some (c', Except.error e) →
        cachePreservedOrExpiredEvict c c' now) ∧
    (∀ (c : SimpleCache) (now : Int) (city : String) (state : Option String)
        (country : String) (u : GeoUpstream) (c' : SimpleCache) (e : HTTPErr),
        geocode c now city state country u = some (c', Except.error e) →
        cachePreservedOrExpiredEvict c c' now) := by
  constructor
  · intro c now lat lon u c' e h
    cases hg : c.get (weather_cache_key lat lon) now with
    | none => rw [get_weather, hg] at h; exact Option.noConfusion h
    | some p =>
      obtain ⟨c1, cd⟩ := p
      have hpres := get_result_preserved_or_evicted c _ now c1 cd hg
      cases htr : truthy cd with
      | some s => rw [get_weather, hg] at h; simp [htr] at h
      | none =>
        cases hu : get_weather_try c1 (weather_cache_key lat lon) now u with
        | ok pr => obtain ⟨c2, pl⟩ := pr; rw [get_weather, hg] at h; simp [htr, hu] at h
        | error ex =>
          rw [get_weather, hg] at h
          simp only [htr, hu, Option.some.injEq, Prod.mk.injEq] at h
          rw [← h.1]
          exact hpres
  · intro c now city state country u c' e h
    cases hg : c.get (geocode_cache_key city state country) now with
    | none => rw [geocode, hg] at h; exact Option.noConfusion h
    | some p =>
      obtain ⟨c1, cd⟩ := p
      have hpres := get_result_preserved_or_evicted c _ now c1 cd hg
      cases htr : truthy cd with
      | some s => rw [geocode, hg] at h; simp [htr] at h
      | none =>
        cases hu : geocode_try c1 (geocode_cache_key city state country) now u with
        | ok pr => obtain ⟨c2, pl⟩ := pr; rw [geocode, hg] at h; simp [htr, hu] at h
        | error ex =>
          rw [geocode, hg] at h
          simp only [htr, hu, Option.some.injEq, Prod.mk.injEq] at h
          rw [← h.1]
          exact hpres

/-- Closed witness for `no_cache_write_on_failure_amended`: an upstream
timeout on an empty cache returns the 503 error and leaves the cache as it
was. -/
theorem no_cache_write_on_failure_amended_witness :
    get_weather emptyCache 0 0 0 WeatherUpstream.timeout =
      some (emptyCache, Except.error ⟨503, "SERVICE_UNAVAILABLE"⟩) ∧
    cachePreservedOrExpiredEvict emptyCache emptyCache 0 :=
  ⟨rfl,
   no_cache_write_on_failure_amended.1 emptyCache 0 0 0 WeatherUpstream.timeout emptyCache
     ⟨503, "SERVICE_UNAVAILABLE"⟩ rfl⟩

/-- C6 (code bug): when the geocode upstream succeeds with zero results, the
try-body does raise the intended `HTTPException(404, LOCATION_NOT_FOUND)` —
but `fastapi.HTTPException` subclasses `Exception`, so the handler's blanket
`except Exception` arm (line 1114) catches it and re-raises 500
`INTERNAL_ERROR`.  The client therefore observes 500/`INTERNAL_ERROR`, not
the 404/`LOCATION_NOT_FOUND` the claim (and the code's own line 1090)
intends. -/
theorem geocode_zero_results_returns_500 :
    geocode emptyCache 0 "Nowhereville" none "US" GeoUpstream.empty =
      some (emptyCache, Except.error ⟨500, "INTERNAL_ERROR"⟩) ∧
    geocode_try emptyCache (geocode_cache_key "Nowhereville" none "US") 0 GeoUpstream.empty =
      Except.error (GeoExc.httpException 404 "LOCATION_NOT_FOUND") ∧
    geocode_except (GeoExc.httpException 404 "LOCATION_NOT_FOUND") = ⟨500, "INTERNAL_ERROR"⟩ ∧
    (⟨500, "INTERNAL_ERROR"⟩ : HTTPErr) ≠ ⟨404, "LOCATION_NOT_FOUND"⟩ := by
  refine ⟨rfl, rfl, rfl, by decide⟩

/-- C7: the literal sample equations for the unit converters. -/
theorem unit_conversion_samples :
    celsius_to_fahrenheit 0 = 32 ∧ celsius_to_fahrenheit 100 = 212 ∧
    kph_to_mph 100 = 62 ∧
    degrees_to_cardinal 0 = some "N" ∧ degrees_to_cardinal 90 = some "E" ∧
    degrees_to_cardinal 359 = some "N" := by
  have h0 : cardinalIndex 0 = 0 := by norm_num [cardinalIndex, pyRound]
  have h90 : cardinalIndex 90 = 4 := by norm_num [cardinalIndex, pyRound]
  have h359 : cardinalIndex 359 = 0 := by norm_num [cardinalIndex, pyRound]
  refine ⟨by norm_num [celsius_to_fahrenheit, pyRound],
    by norm_num [celsius_to_fahrenheit, pyRound],
    by norm_num [kph_to_mph, pyRound], ?_, ?_, ?_⟩
  · unfold degrees_to_cardinal; rw [h0]; decide
  · unfold degrees_to_cardinal; rw [h90]; decide
  · unfold degrees_to_cardinal; rw [h359]; decide

/-- C8: when the two dictionaries hold the same key set, every `SimpleCache`
operation preserves that invariant, and the operations whose Python code
could raise a `KeyError` on a desynchronized cache (`get`'s expiry lookup
and cleanup, `delete`'s double deletion) never fail. -/
theorem simplecache_samekeys_invariant (c : SimpleCache) (h : SameKeys c)
    (k v : String) (t now : Int) :
    SameKeys (c.setex k t v now) ∧ getTotalPreserving c k now ∧
    deleteTotalPreserving c k ∧ SameKeys (c.clear) := by
  refine ⟨?_, ?_, ?_, ?_⟩
  · intro k'
    by_cases hk : k' = k
    · simp [SimpleCache.setex, updateMap, hk]
    · simpa [SimpleCache.setex, updateMap, hk] using h k'
  · cases hc : c.cache k with
    | none => exact ⟨(c, none), by simp [SimpleCache.get, hc], h⟩
    | some v0 =>
      have hs : (c.expiry k).isSome := (h k).mp (by simp [hc])
      obtain ⟨e, he⟩ := Option.isSome_iff_exists.mp hs
      by_cases hlt : now < e
      · exact ⟨(c, some v0), by simp [SimpleCache.get, hc, he, hlt], h⟩
      · refine ⟨(⟨updateMap c.cache k none, updateMap c.expiry k none⟩, none),
          by simp [SimpleCache.get, hc, he, hlt], ?_⟩
        intro k'
        by_cases hk : k' = k
        · simp [updateMap, hk]
        · simpa [updateMap, hk] using h k'
  · cases hc : c.cache k with
    | none => exact ⟨c, by simp [SimpleCache.delete, hc], h⟩
    | some v0 =>
      have hs : (c.expiry k).isSome := (h k).mp (by simp [hc])
      obtain ⟨e, he⟩ := Option.isSome_iff_exists.mp hs
      refine ⟨⟨updateMap c.cache k none, updateMap c.expiry k none⟩,
        by simp [SimpleCache.delete, hc, he], ?_⟩
      intro k'
      by_cases hk : k' = k
      · simp [updateMap, hk]
      · simpa [updateMap, hk] using h k'
  · intro k'
    simp [SimpleCache.clear]

/-- Closed witness for `simplecache_samekeys_invariant`, at the empty
cache. -/
theorem simplecache_samekeys_invariant_witness :
    SameKeys emptyCache ∧
    (SameKeys (emptyCache.setex "k" 5 "v" 0) ∧ getTotalPreserving emptyCache "k" 0 ∧
      deleteTotalPreserving emptyCache "k" ∧ SameKeys (emptyCache.clear)) :=
  ⟨fun _ => Iff.rfl,
   simplecache_samekeys_invariant emptyCache (fun _ => Iff.rfl) "k" "v" 5 0⟩

/-- C9: `degrees_to_cardinal` is total — for every rational input the index
`round(degrees / 22.5) % 16` lies in `[0, 15]`, so the function returns one
of the 16 direction strings and the list indexing never fails. -/
theorem degrees_to_cardinal_total (d : ℚ) :
    0 ≤ cardinalIndex d ∧ cardinalIndex d ≤ 15 ∧
    ∃ s, degrees_to_cardinal d = some s ∧ s ∈ directions := by
  have h0 : 0 ≤ cardinalIndex d := by
    unfold cardinalIndex
    exact Int.emod_nonneg _ (by norm_num)
  have h1 : cardinalIndex d < 16 := by
    unfold cardinalIndex
    exact Int.emod_lt_of_pos _ (by norm_num)
  have hn : (cardinalIndex d).toNat < directions.length := by
    have h2 : (cardinalIndex d).toNat < 16 := by omega
    simpa [directions] using h2
  refine ⟨h0, by omega, directions[(cardinalIndex d).toNat], ?_, ?_⟩
  · simp [degrees_to_cardinal, List.getElem?_eq_getElem hn]
  · exact List.getElem_mem hn

/-- C10: `get_planetary_position` rejects with 400/`INVALID_PLANET` —
returning the cache argument untouched, for *any* cache state, i.e. before
any cache access — exactly when `planet.capitalize()` is not one of the
seven valid planet names; case variants such as `"mars"`/`"MARS"`
capitalize to `"Mars"` and are accepted. -/
theorem planet_validation_iff (planet : String) (date time : Option String)
    (latitude longitude : Option ℚ) :
    ((pyCapitalize planet ∉ VALID_PLANETS) ↔
      (∀ (c : SimpleCache) (now : Int) (u : PlanetOutcome),
        get_planetary_position planet date time latitude longitude c now u =
          some (c, Except.error ⟨400, "INVALID_PLANET"⟩))) ∧
    pyCapitalize "mars" = "Mars" ∧ pyCapitalize "MARS" = "Mars" ∧
    ("Mars" : String) ∈ VALID_PLANETS := by
  refine ⟨⟨?_, ?_⟩, by decide, by decide, by decide⟩
  · intro hnot c now u
    simp [get_planetary_position, hnot]
  · intro hall
    by_contra hnn
    have heval : get_planetary_position planet date time latitude longitude
        (emptyCache.setex (planet_cache_key (pyCapitalize planet) date time latitude longitude)
          100 "cached" 0) 0 PlanetOutcome.failure =
        some (emptyCache.setex (planet_cache_key (pyCapitalize planet) date time latitude longitude)
          100 "cached" 0, Except.ok "cached") := by
      simp [get_planetary_position, hnn, SimpleCache.get, SimpleCache.setex, updateMap, truthy]
    have hlive := hall
      (emptyCache.setex (planet_cache_key (pyCapitalize planet) date time latitude longitude)
        100 "cached" 0) 0 PlanetOutcome.failure
    rw [heval] at hlive
    simp at hlive

/-- Closed application of `planet_validation_iff`: `"pluto"` is rejected
with 400/`INVALID_PLANET` on the empty cache. -/
theorem planet_validation_iff_witness :
    get_planetary_position "pluto" none none none none emptyCache 0 PlanetOutcome.failure =
      some (emptyCache, Except.error ⟨400, "INVALID_PLANET"⟩) :=
  ((planet_validation_iff "pluto" none none none none).1.mp (by decide))
    emptyCache 0 PlanetOutcome.failure
